import Mathlib

/-!
A verification development for the SSH-2 user-authentication layer of
`paramiko/auth_handler.py` (class `AuthHandler`).

The handler methods are embedded as pure Lean functions over an explicit
`AuthState`; side effects (messages sent on the transport, the auth trigger,
setting the caller's event) become an explicit list of `Output` values, and a
Python exception raised by a handler becomes an `Option PyErr` component
(every raising path in the source raises before mutating handler state, so an
error result leaves the state unchanged, as in the source).

External collaborators that are not part of this repository's source
directory (the `Message` wire codec, the constants of `common.py`, Python's
UTF-8 codec) are modelled from the spec where needed; each such definition
carries a doc comment saying so.
-/

namespace AuthHandler

/-- Wire bytes: one natural number (in 0..255) per byte. -/
abbrev Bytes := List Nat

/-- Modelled from the spec: big-endian 4-byte encoding of a uint32
(message-codec primitive of spec section 4.1; `message.py` is not under
`src/`). -/
def u32be (n : Nat) : Bytes :=
  [n / 16777216 % 256, n / 65536 % 256, n / 256 % 256, n % 256]

/-- Modelled from the spec: UTF-8 encoding of one character, as Python's
`str.encode('utf-8')` produces it. -/
def utf8Char (c : Char) : List Nat :=
  let n := c.toNat
  if n < 128 then [n]
  else if n < 2048 then
    [192 + n / 64, 128 + n % 64]
  else if n < 65536 then
    [224 + n / 4096, 128 + n / 64 % 64, 128 + n % 64]
  else
    [240 + n / 262144, 128 + n / 4096 % 64, 128 + n / 64 % 64, 128 + n % 64]

/-- Modelled from the spec: UTF-8 encoding of a Python `str`. -/
def utf8 (s : String) : Bytes :=
  s.data.flatMap utf8Char

/-- Is `b` a UTF-8 continuation byte? -/
def contByte (b : Nat) : Bool :=
  decide (128 ≤ b ∧ b < 192)

/-- Modelled from the spec: strict UTF-8 decoding, as Python's
`bytes.decode('utf-8')` (rejects truncated sequences, overlong forms,
surrogates and out-of-range code points). -/
def utf8DecodeAux : List Nat → Option (List Char)
  | [] => some []
  | b :: rest =>
    if b < 128 then
      match utf8DecodeAux rest with
      | some cs => some (Char.ofNat b :: cs)
      | none => none
    else if b < 194 then none
    else if b < 224 then
      match rest with
      | b1 :: rest1 =>
        if contByte b1 then
          match utf8DecodeAux rest1 with
          | some cs => some (Char.ofNat ((b - 192) * 64 + (b1 - 128)) :: cs)
          | none => none
        else none
      | [] => none
    else if b < 240 then
      match rest with
      | b1 :: b2 :: rest2 =>
        if contByte b1 && contByte b2 then
          let n := (b - 224) * 4096 + (b1 - 128) * 64 + (b2 - 128)
          if n < 2048 || (55296 ≤ n && n < 57344) then none
          else
            match utf8DecodeAux rest2 with
            | some cs => some (Char.ofNat n :: cs)
            | none => none
        else none
      | _ => none
    else if b < 245 then
      match rest with
      | b1 :: b2 :: b3 :: rest3 =>
        if contByte b1 && contByte b2 && contByte b3 then
          let n := (b - 240) * 262144 + (b1 - 128) * 4096 + (b2 - 128) * 64 + (b3 - 128)
          if n < 65536 || 1114112 ≤ n then none
          else
            match utf8DecodeAux rest3 with
            | some cs => some (Char.ofNat n :: cs)
            | none => none
        else none
      | _ => none
    else none

/-- A Python value that is either a `str` or a `bytes` (the password argument
handed to the server policy may be either). -/
inductive PyVal
  | pstr (s : String)
  | pbytes (b : Bytes)
  deriving DecidableEq

/-- Python `password.decode('utf-8')` with fallback to the raw bytes on
`UnicodeError`, as in `_parse_userauth_request`. -/
def pyDecodeUtf8 (b : Bytes) : PyVal :=
  match utf8DecodeAux b with
  | some cs => PyVal.pstr (String.mk cs)
  | none => PyVal.pbytes b

/-- Modelled from the spec (section 6): message numbers of `common.py`,
which is not under `src/`. -/
def MSG_DISCONNECT : Nat := 1

def MSG_SERVICE_REQUEST : Nat := 5

def MSG_SERVICE_ACCEPT : Nat := 6

def MSG_USERAUTH_REQUEST : Nat := 50

def MSG_USERAUTH_FAILURE : Nat := 51

def MSG_USERAUTH_SUCCESS : Nat := 52

def MSG_USERAUTH_BANNER : Nat := 53

def MSG_USERAUTH_PK_OK : Nat := 60

def MSG_USERAUTH_INFO_REQUEST : Nat := 60

def MSG_USERAUTH_INFO_RESPONSE : Nat := 61

/-- Modelled from the spec: disconnect reason code of `common.py`. -/
def DISCONNECT_SERVICE_NOT_AVAILABLE : Nat := 7

/-- Modelled from the spec: disconnect reason code of `common.py`. -/
def DISCONNECT_NO_MORE_AUTH_METHODS_AVAILABLE : Nat := 14

/-- Modelled from the spec: `Message.add_byte` appends one raw byte
(codec primitive `byte` of spec section 4.1). -/
def add_byte (m : Bytes) (b : Nat) : Bytes :=
  m ++ [b % 256]

/-- Modelled from the spec: `Message.add_boolean` appends one byte, 0 or 1
(codec primitive `boolean` of spec section 4.1). -/
def add_boolean (m : Bytes) (b : Bool) : Bytes :=
  m ++ [if b then 1 else 0]

/-- Modelled from the spec: `Message.add_bytes` appends a length-prefixed
`string` (uint32 length then raw bytes, spec section 4.1); this fork of the
codec uses it for every wire `string` whose payload is already `bytes`. -/
def add_bytes (m : Bytes) (s : Bytes) : Bytes :=
  m ++ u32be s.length ++ s

/-- Modelled from the spec: `Message.add_string(s, 'utf-8')` encodes the text
and appends it as a length-prefixed wire `string`. -/
def add_string (m : Bytes) (s : String) : Bytes :=
  add_bytes m (utf8 s)

/-- Byte-string constants used by `auth_handler.py`. -/
def sshUserauthB : Bytes := utf8 "ssh-userauth"

def sshConnectionB : Bytes := utf8 "ssh-connection"

def publickeyB : Bytes := utf8 "publickey"

def passwordB : Bytes := utf8 "password"

def noneB : Bytes := utf8 "none"

def kbdInteractiveB : Bytes := utf8 "keyboard-interactive"

/-- The key capability (`PKey`): algorithm name, public blob, sign, verify.
Opaque to the auth core; supplied by the crypto layer. -/
structure PKey where
  get_name : Bytes
  getvalue : Bytes
  verify_ssh_sig : Bytes → Bytes → Bool
  sign_ssh_data : Bytes → Bytes

/-- `AUTH_SUCCESSFUL` / `AUTH_PARTIALLY_SUCCESSFUL` / `AUTH_FAILED`. -/
inductive AuthResult
  | successful
  | partiallySuccessful
  | failed
  deriving DecidableEq

/-- `paramiko.server.InteractiveQuery`. -/
structure InteractiveQuery where
  name : String
  instructions : String
  prompts : List (String × Bool)
  deriving DecidableEq

/-- What a server policy callback may return: an auth result, or (for the
interactive callbacks) an `InteractiveQuery`. -/
inductive CheckResult
  | auth (r : AuthResult)
  | query (q : InteractiveQuery)
  deriving DecidableEq

/-- The pluggable server policy (`transport.server_object`). -/
structure ServerPolicy where
  check_auth_none : String → AuthResult
  check_auth_password : String → PyVal → AuthResult
  check_auth_publickey : String → PKey → AuthResult
  check_auth_interactive : String → String → CheckResult
  check_auth_interactive_response : List String → CheckResult
  get_allowed_auths : String → Bytes

/-- External environment of the handler: the server policy and the
transport's key-parser registry (`transport._key_info[keytype](Message(keyblob))`,
collapsed to one lookup-and-parse function returning `none` on any failure). -/
structure Env where
  policy : ServerPolicy
  key_info : Bytes → Bytes → Option PKey

/-- Exceptions stored in the transport's saved-exception slot and raised by
`wait_for_response`. -/
inductive AuthExc
  | authenticationException
  | partialAuthentication (allowed : List Bytes)
  | badAuthenticationType (allowed : List Bytes)
  | eofError
  deriving DecidableEq

/-- A Python exception raised out of a handler method. -/
inductive PyErr
  | sshException (msg : String)
  | assertionError
  | typeError
  deriving DecidableEq

/-- One observable side effect of a handler method: a message handed to
`transport._send_message`, a transport close, the auth trigger, or setting
the caller's event. -/
inductive Output
  | serviceRequest (service : Bytes)
  | serviceAccept (service : Bytes)
  | userauthRequestMsg (payload : Bytes)
  | success
  | failure (auths : Bytes) (partialFlag : Bool)
  | pkOk (alg blob : Bytes)
  | infoRequest (name instructions : String) (prompts : List (String × Bool))
  | infoResponse (responses : List String)
  | disconnect (reason : Nat)
  | closeTransport
  | authTrigger
  | setEvent
  deriving DecidableEq

/-- The mutable fields of an `AuthHandler` together with the transport
fields it reads and writes (`server_mode`, `session_id`, the active flag and
the saved-exception slot). `auth_event` is `true` when an event object is
stored (not `None`); setting the event is the `Output.setEvent` effect. -/
structure AuthState where
  server_mode : Bool
  transport_active : Bool
  session_id : Bytes
  saved_exception : Option AuthExc
  username : Option String
  authenticated : Bool
  auth_event : Bool
  auth_method : Bytes
  password : Option String
  private_key : Option PKey
  interactive_handler : Option (String → String → List (String × Bool) → List String)
  submethods : Option String
  auth_username : Option String
  auth_fail_count : Nat

/-- The parsed body of an incoming `USERAUTH_REQUEST` after the username,
service and method fields (per-method fields as read by
`_parse_userauth_request`). -/
inductive ReqMethod
  | mnone
  | password (changereq : Bool) (pw : Bytes) (newpw : Bytes)
  | publickey (sig_attached : Bool) (keytype : Bytes) (keyblob : Bytes) (sig : Bytes)
  | keyboardInteractive (lang : Bytes) (submethods : String)
  | unknown (name : Bytes)

/-- One invocation of a handler method: a facade call from the caller thread
or a dispatched inbound message on the reader thread. -/
inductive Op
  | auth_none (username : String)
  | auth_password (username : String) (pw : String)
  | auth_publickey (username : String) (key : PKey)
  | auth_interactive (username : String)
      (handler : String → String → List (String × Bool) → List String)
      (submethods : String)
  | abort
  | serviceRequest (service : Bytes)
  | serviceAccept (service : Bytes)
  | userauthRequest (username : String) (service : Bytes) (meth : ReqMethod)
  | userauthSuccess
  | userauthFailure (authlist : List Bytes) (partialFlag : Bool)
  | banner (msg : Bytes) (lang : Bytes)
  | infoRequest (title instructions : String) (prompts : List (String × Bool))
  | infoResponse (responses : List String)

/-- `_request_auth`: send `SERVICE_REQUEST("ssh-userauth")`. -/
def request_auth (st : AuthState) : AuthState × List Output × Option PyErr :=
  (st, [Output.serviceRequest sshUserauthB], none)

/-- `_disconnect_service_not_available`: send a DISCONNECT and close. -/
def disconnect_service_not_available (st : AuthState) : AuthState × List Output :=
  ({st with transport_active := false},
   [Output.disconnect DISCONNECT_SERVICE_NOT_AVAILABLE, Output.closeTransport])

/-- `_disconnect_no_more_auth`: send a DISCONNECT and close. -/
def disconnect_no_more_auth (st : AuthState) : AuthState × List Output :=
  ({st with transport_active := false},
   [Output.disconnect DISCONNECT_NO_MORE_AUTH_METHODS_AVAILABLE, Output.closeTransport])

/-- `_get_session_blob`: the canonical blob a publickey signature covers. -/
def get_session_blob (session_id : Bytes) (key : PKey) (service : Bytes)
    (username : String) : Bytes :=
  let m : Bytes := []
  let m := add_bytes m session_id
  let m := add_byte m MSG_USERAUTH_REQUEST
  let m := add_string m username
  let m := add_bytes m service
  let m := add_bytes m publickeyB
  let m := add_boolean m true
  let m := add_bytes m key.get_name
  let m := add_bytes m key.getvalue
  m

/-- The blob the client signs in `_parse_service_accept`: it hardcodes the
service `b"ssh-connection"`. -/
def client_session_blob (session_id : Bytes) (key : PKey) (username : String) : Bytes :=
  get_session_blob session_id key sshConnectionB username

/-- The blob the server recomputes in `_parse_userauth_request` to verify an
attached signature: it passes the service received on the wire. -/
def server_session_blob (session_id : Bytes) (key : PKey) (service : Bytes)
    (username : String) : Bytes :=
  get_session_blob session_id key service username

/-- The canonical publickey signature blob, written exactly as the spec lays
it out: `string session_id || byte USERAUTH_REQUEST || string username ||
string "ssh-connection" || string "publickey" || boolean true ||
string alg_name || string pubkey_blob` (for comparison with the blob the
source builds). -/
def canonical_session_blob (session_id : Bytes) (username : String)
    (alg_name : Bytes) (pubkey_blob : Bytes) : Bytes :=
  (u32be session_id.length ++ session_id)
    ++ [MSG_USERAUTH_REQUEST]
    ++ (u32be (utf8 username).length ++ utf8 username)
    ++ (u32be (utf8 "ssh-connection").length ++ utf8 "ssh-connection")
    ++ (u32be (utf8 "publickey").length ++ utf8 "publickey")
    ++ [1]
    ++ (u32be alg_name.length ++ alg_name)
    ++ (u32be pubkey_blob.length ++ pubkey_blob)

/-- `wait_for_response`, as a function of the snapshot the caller thread
observes when a poll slice runs: the transport active flag, the transport's
saved exception, whether the event is set, and `authenticated`. -/
inductive WaitRes
  | continueWaiting
  | raised (e : AuthExc)
  | returned (allowed : List Bytes)
  deriving DecidableEq

/-- `wait_for_response`: one poll slice of the wait loop followed, when the
loop breaks, by the post-event logic of the source. -/
def wait_for_response (active : Bool) (saved : Option AuthExc)
    (event_set : Bool) (authenticated : Bool) : WaitRes :=
  if active = false then
    let e := match saved with
      | none => AuthExc.authenticationException
      | some AuthExc.eofError => AuthExc.authenticationException
      | some e => e
    WaitRes.raised e
  else if event_set = false then
    WaitRes.continueWaiting
  else if authenticated = false then
    let e := match saved with
      | none => AuthExc.authenticationException
      | some e => e
    match e with
    | AuthExc.partialAuthentication allowed => WaitRes.returned allowed
    | e => WaitRes.raised e
  else
    WaitRes.returned []

/-- `_parse_service_request`. -/
def parse_service_request (st : AuthState) (service : Bytes) :
    AuthState × List Output × Option PyErr :=
  if st.server_mode ∧ service = sshUserauthB then
    (st, [Output.serviceAccept service], none)
  else
    let (st', out) := disconnect_service_not_available st
    (st', out, none)

/-- `_parse_service_accept`: build and send the `USERAUTH_REQUEST` for the
armed method.  A `None` field that the source would crash on (username,
password, private key, submethods missing) is an error result. -/
def parse_service_accept (st : AuthState) (service : Bytes) :
    AuthState × List Output × Option PyErr :=
  if service = sshUserauthB then
    match st.username with
    | none => (st, [], some PyErr.typeError)
    | some u =>
      let m := add_byte [] MSG_USERAUTH_REQUEST
      let m := add_bytes m (utf8 u)
      let m := add_bytes m sshConnectionB
      let m := add_bytes m st.auth_method
      if st.auth_method = passwordB then
        match st.password with
        | none => (st, [], some PyErr.typeError)
        | some pw =>
          let m := add_boolean m false
          let m := add_bytes m (utf8 pw)
          (st, [Output.userauthRequestMsg m], none)
      else if st.auth_method = publickeyB then
        match st.private_key with
        | none => (st, [], some PyErr.typeError)
        | some key =>
          let m := add_boolean m true
          let m := add_bytes m key.get_name
          let m := add_bytes m key.getvalue
          let blob := client_session_blob st.session_id key u
          let sig := key.sign_ssh_data blob
          let m := add_bytes m sig
          (st, [Output.userauthRequestMsg m], none)
      else if st.auth_method = kbdInteractiveB then
        match st.submethods with
        | none => (st, [], some PyErr.typeError)
        | some sub =>
          let m := add_bytes m (utf8 "")
          let m := add_string m sub
          (st, [Output.userauthRequestMsg m], none)
      else if st.auth_method = noneB then
        (st, [Output.userauthRequestMsg m], none)
      else
        (st, [], some (PyErr.sshException "Unknown auth method"))
  else
    (st, [], none)

/-- `_send_auth_result(username, method, result)`.  The opening
`assert isinstance(username, str)` fails when `username` is `None`. -/
def send_auth_result (env : Env) (st : AuthState) (username : Option String)
    (_method : Bytes) (result : CheckResult) : AuthState × List Output × Option PyErr :=
  match username with
  | none => (st, [], some PyErr.assertionError)
  | some u =>
    let (st1, out1) :=
      if result = CheckResult.auth AuthResult.successful then
        ({st with authenticated := true}, [Output.success])
      else
        let auths := env.policy.get_allowed_auths u
        if result = CheckResult.auth AuthResult.partiallySuccessful then
          (st, [Output.failure auths true])
        else
          ({st with auth_fail_count := st.auth_fail_count + 1},
           [Output.failure auths false])
    let (st2, out2) :=
      if 10 ≤ st1.auth_fail_count then
        let (st', d) := disconnect_no_more_auth st1
        (st', out1 ++ d)
      else
        (st1, out1)
    let out3 :=
      if result = CheckResult.auth AuthResult.successful then
        out2 ++ [Output.authTrigger]
      else
        out2
    (st2, out3, none)

/-- `_interactive_query(q)`: send a `USERAUTH_INFO_REQUEST`. -/
def interactive_query (st : AuthState) (q : InteractiveQuery) :
    AuthState × List Output × Option PyErr :=
  (st, [Output.infoRequest q.name q.instructions q.prompts], none)

/-- `_parse_userauth_request`. -/
def parse_userauth_request (env : Env) (st : AuthState) (username : String)
    (service : Bytes) (meth : ReqMethod) : AuthState × List Output × Option PyErr :=
  if st.server_mode = false then
    (st, [Output.failure noneB false], none)
  else if st.authenticated then
    (st, [], none)
  else if service ≠ sshConnectionB then
    let (st', out) := disconnect_service_not_available st
    (st', out, none)
  else if st.auth_username ≠ none ∧ st.auth_username ≠ some username then
    let (st', out) := disconnect_no_more_auth st
    (st', out, none)
  else
    let st := {st with auth_username := some username}
    match meth with
    | ReqMethod.mnone =>
      send_auth_result env st (some username) noneB
        (CheckResult.auth (env.policy.check_auth_none username))
    | ReqMethod.password changereq pw _newpw =>
      let pwval := pyDecodeUtf8 pw
      if changereq then
        send_auth_result env st (some username) passwordB
          (CheckResult.auth AuthResult.failed)
      else
        send_auth_result env st (some username) passwordB
          (CheckResult.auth (env.policy.check_auth_password username pwval))
    | ReqMethod.publickey sig_attached keytype keyblob sig =>
      match env.key_info keytype keyblob with
      | none =>
        let (st', out) := disconnect_no_more_auth st
        (st', out, none)
      | some key =>
        let result := env.policy.check_auth_publickey username key
        if result ≠ AuthResult.failed then
          if sig_attached = false then
            (st, [Output.pkOk keytype keyblob], none)
          else
            let blob := server_session_blob st.session_id key service username
            let result := if key.verify_ssh_sig blob sig then result else AuthResult.failed
            send_auth_result env st (some username) publickeyB (CheckResult.auth result)
        else
          send_auth_result env st (some username) publickeyB (CheckResult.auth result)
    | ReqMethod.keyboardInteractive _lang submethods =>
      match env.policy.check_auth_interactive username submethods with
      | CheckResult.query q => interactive_query st q
      | CheckResult.auth r =>
        send_auth_result env st (some username) kbdInteractiveB (CheckResult.auth r)
    | ReqMethod.unknown mname =>
      send_auth_result env st (some username) mname
        (CheckResult.auth (env.policy.check_auth_none username))

/-- `_parse_userauth_success`. -/
def parse_userauth_success (st : AuthState) : AuthState × List Output × Option PyErr :=
  let st := {st with authenticated := true}
  let out := [Output.authTrigger]
  let out := if st.auth_event then out ++ [Output.setEvent] else out
  (st, out, none)

/-- `_parse_userauth_failure`. -/
def parse_userauth_failure (st : AuthState) (authlist : List Bytes)
    (partialFlag : Bool) : AuthState × List Output × Option PyErr :=
  let st :=
    if partialFlag then
      {st with saved_exception := some (AuthExc.partialAuthentication authlist)}
    else if st.auth_method ∉ authlist then
      {st with saved_exception := some (AuthExc.badAuthenticationType authlist)}
    else
      st
  let st := {st with authenticated := false, username := none}
  let out := if st.auth_event then [Output.setEvent] else []
  (st, out, none)

/-- `_parse_userauth_banner`: the source's log line evaluates
`'Auth banner: ' + banner`, a `str` + `bytes` concatenation (the banner
comes from `get_bytes()`), which raises `TypeError` under Python 3 on every
banner, before any state change or reply. -/
def parse_userauth_banner (st : AuthState) (_msg _lang : Bytes) :
    AuthState × List Output × Option PyErr :=
  (st, [], some PyErr.typeError)

/-- `_parse_userauth_info_request`. -/
def parse_userauth_info_request (st : AuthState) (title instructions : String)
    (prompts : List (String × Bool)) : AuthState × List Output × Option PyErr :=
  if st.auth_method ≠ kbdInteractiveB then
    (st, [], some (PyErr.sshException "Illegal info request from server"))
  else
    match st.interactive_handler with
    | none => (st, [], some PyErr.typeError)
    | some h => (st, [Output.infoResponse (h title instructions prompts)], none)

/-- The source's test `isinstance(type(result), InteractiveQuery)`:
`type(result)` is a class object, which is an instance of `type` and never of
the ordinary class `InteractiveQuery`, so the test is false for every value
of `result`. -/
def isinstance_type_InteractiveQuery (_result : CheckResult) : Bool :=
  false

/-- `_parse_userauth_info_response`. -/
def parse_userauth_info_response (env : Env) (st : AuthState)
    (responses : List String) : AuthState × List Output × Option PyErr :=
  if st.server_mode = false then
    (st, [], some (PyErr.sshException "Illegal info response from server"))
  else
    let result := env.policy.check_auth_interactive_response responses
    if isinstance_type_InteractiveQuery result then
      match result with
      | CheckResult.query q => interactive_query st q
      | CheckResult.auth _ => (st, [], some PyErr.typeError)
    else
      send_auth_result env st st.auth_username kbdInteractiveB result

/-- `auth_none`: arm an attempt (the facade stores the caller's event). -/
def auth_none (st : AuthState) (username : String) :
    AuthState × List Output × Option PyErr :=
  request_auth {st with
    auth_event := true
    auth_method := noneB
    username := some username}

/-- `auth_password`. -/
def auth_password (st : AuthState) (username pw : String) :
    AuthState × List Output × Option PyErr :=
  request_auth {st with
    auth_event := true
    auth_method := passwordB
    username := some username
    password := some pw}

/-- `auth_publickey`. -/
def auth_publickey (st : AuthState) (username : String) (key : PKey) :
    AuthState × List Output × Option PyErr :=
  request_auth {st with
    auth_event := true
    auth_method := publickeyB
    username := some username
    private_key := some key}

/-- `auth_interactive`. -/
def auth_interactive (st : AuthState) (username : String)
    (handler : String → String → List (String × Bool) → List String)
    (submethods : String) : AuthState × List Output × Option PyErr :=
  request_auth {st with
    auth_event := true
    auth_method := kbdInteractiveB
    username := some username
    interactive_handler := some handler
    submethods := some submethods}

/-- `abort`: set the event when one is stored. -/
def abort (st : AuthState) : AuthState × List Output × Option PyErr :=
  (st, if st.auth_event then [Output.setEvent] else [], none)

/-- Dispatch one operation to the handler method the source's
`_handler_table` (or the facade) routes it to. -/
def step (env : Env) (st : AuthState) (op : Op) :
    AuthState × List Output × Option PyErr :=
  match op with
  | Op.auth_none u => auth_none st u
  | Op.auth_password u pw => auth_password st u pw
  | Op.auth_publickey u key => auth_publickey st u key
  | Op.auth_interactive u h sub => auth_interactive st u h sub
  | Op.abort => abort st
  | Op.serviceRequest sv => parse_service_request st sv
  | Op.serviceAccept sv => parse_service_accept st sv
  | Op.userauthRequest u sv meth => parse_userauth_request env st u sv meth
  | Op.userauthSuccess => parse_userauth_success st
  | Op.userauthFailure l p => parse_userauth_failure st l p
  | Op.banner msg lang => parse_userauth_banner st msg lang
  | Op.infoRequest t i p => parse_userauth_info_request st t i p
  | Op.infoResponse rs => parse_userauth_info_response env st rs

/-- Process a list of operations in order, stopping at the first raised
exception (a raise propagates out of the reader's dispatch). -/
def run (env : Env) (st : AuthState) : List Op → AuthState × List Output × Option PyErr
  | [] => (st, [], none)
  | op :: rest =>
    let (st1, out1, err1) := step env st op
    match err1 with
    | some e => (st1, out1, some e)
    | none =>
      let (st2, out2, err2) := run env st1 rest
      (st2, out1 ++ out2, err2)

/-- Repeated calls to `_send_auth_result` with a fixed username and method:
the server's result-emission sequence for a series of auth outcomes. -/
def runResults (env : Env) (u : String) (method : Bytes) (st : AuthState) :
    List CheckResult → AuthState × List Output
  | [] => (st, [])
  | r :: rs =>
    let (st1, out1, _) := send_auth_result env st (some u) method r
    let (st2, out2) := runResults env u method st1 rs
    (st2, out1 ++ out2)

/-- A result counts as a non-partial failure emission: anything other than
`AUTH_SUCCESSFUL` and `AUTH_PARTIALLY_SUCCESSFUL`. -/
def isNonPartialFailure (r : CheckResult) : Bool :=
  decide (r ≠ CheckResult.auth AuthResult.successful ∧
          r ≠ CheckResult.auth AuthResult.partiallySuccessful)

/-- The banner operations for a list of (message, language) payloads. -/
def bannerOps (ps : List (Bytes × Bytes)) : List Op :=
  ps.map fun p => Op.banner p.1 p.2

/-- How many times a list of outputs sets the caller's event. -/
def countSetEvent (out : List Output) : Nat :=
  (out.filter fun o => decide (o = Output.setEvent)).length

/-- The number of non-partial failure emissions a result list causes. -/
def countNonPartialFailures : List CheckResult → Nat
  | [] => 0
  | r :: rs => (if isNonPartialFailure r then 1 else 0) + countNonPartialFailures rs

/-- A freshly constructed handler (`__init__`), on a transport in the given
mode with an empty session id. -/
def initState (server : Bool) : AuthState :=
  { server_mode := server
    transport_active := true
    session_id := []
    saved_exception := none
    username := none
    authenticated := false
    auth_event := false
    auth_method := []
    password := none
    private_key := none
    interactive_handler := none
    submethods := none
    auth_username := none
    auth_fail_count := 0 }

/-- A policy that rejects everything (concrete instance for witnesses). -/
def noPolicy : ServerPolicy :=
  { check_auth_none := fun _ => AuthResult.failed
    check_auth_password := fun _ _ => AuthResult.failed
    check_auth_publickey := fun _ _ => AuthResult.failed
    check_auth_interactive := fun _ _ => CheckResult.auth AuthResult.failed
    check_auth_interactive_response := fun _ => CheckResult.auth AuthResult.failed
    get_allowed_auths := fun _ => noneB }

/-- An environment with the reject-all policy and no known key types. -/
def env0 : Env :=
  { policy := noPolicy, key_info := fun _ _ => none }

/-- A concrete key (for witnesses). -/
def pk0 : PKey :=
  { get_name := utf8 "ssh-rsa"
    getvalue := [1, 2, 3]
    verify_ssh_sig := fun _ _ => true
    sign_ssh_data := fun _ => [9] }

/-- An environment whose policy accepts `pk0`-style public keys and parses
every key blob to `pk0` (concrete instance for the publickey witnesses). -/
def env6 : Env :=
  { policy := { noPolicy with
      check_auth_publickey := fun _ _ => AuthResult.successful,
      get_allowed_auths := fun _ => publickeyB }
    key_info := fun _ _ => some pk0 }

/-- A concrete interactive query (for the info-response evaluation). -/
def q0 : InteractiveQuery :=
  { name := "t", instructions := "i", prompts := [("p", true)] }

/-- An environment whose `check_auth_interactive_response` returns a further
`InteractiveQuery` (the failing input of the info-response bug). -/
def env2 : Env :=
  { policy := { noPolicy with
      check_auth_interactive_response := fun _ => CheckResult.query q0,
      get_allowed_auths := fun _ => kbdInteractiveB }
    key_info := fun _ _ => none }

/-- A server handler that has bound the username "alice". -/
def st2 : AuthState :=
  {initState true with auth_username := some "alice"}

/-- A server handler that has authenticated as "alice". -/
def authedServerState : AuthState :=
  {initState true with authenticated := true, auth_username := some "alice"}

/-- Claim C7: the session blob the client signs for publickey
authentication (`_parse_service_accept`, via `_get_session_blob` with
service hardcoded to `b"ssh-connection"`) and the blob the server recomputes
to verify the signature (`_parse_userauth_request`, with the service received
on the wire) are byte-identical whenever both sides use the same session id,
username, the service string "ssh-connection", and the same key algorithm
name and public key blob; and both follow the canonical layout
`string session_id || byte USERAUTH_REQUEST || string username ||
string "ssh-connection" || string "publickey" || boolean true ||
string alg_name || string pubkey_blob`. -/
theorem session_blob_canonical (session_id : Bytes) (username : String)
    (ck sk : PKey) (service : Bytes)
    (hn : sk.get_name = ck.get_name) (hv : sk.getvalue = ck.getvalue)
    (hs : service = sshConnectionB) :
    client_session_blob session_id ck username
      = server_session_blob session_id sk service username
  ∧ client_session_blob session_id ck username
      = canonical_session_blob session_id username ck.get_name ck.getvalue := by
  subst hs
  constructor
  · simp [client_session_blob, server_session_blob, get_session_blob,
      add_bytes, add_byte, add_string, add_boolean, hn, hv]
  · simp [client_session_blob, get_session_blob, canonical_session_blob,
      add_bytes, add_byte, add_string, add_boolean, sshConnectionB,
      publickeyB, MSG_USERAUTH_REQUEST]

/-- Witness for C7 at a concrete session id, username and key. -/
theorem session_blob_canonical_witness :
    client_session_blob [7] pk0 "al" = server_session_blob [7] pk0 sshConnectionB "al"
  ∧ client_session_blob [7] pk0 "al"
      = canonical_session_blob [7] "al" pk0.get_name pk0.getvalue :=
  session_blob_canonical [7] "al" pk0 pk0 sshConnectionB rfl rfl rfl

/-- Claim C8: for every call to `wait_for_response` that terminates with the
event set (the transport still active at the final poll, so the loop exits by
the break): if `authenticated` is true it returns the empty list; if
`authenticated` is false and the transport's saved exception is a
`PartialAuthentication` it returns that exception's allowed-types list;
otherwise it raises the saved exception, or a generic authentication failure
when none is saved. -/
theorem wait_for_response_spec (saved : Option AuthExc) (authenticated : Bool) :
    (authenticated = true →
      wait_for_response true saved true authenticated = WaitRes.returned [])
  ∧ (authenticated = false → ∀ l, saved = some (AuthExc.partialAuthentication l) →
      wait_for_response true saved true authenticated = WaitRes.returned l)
  ∧ (authenticated = false →
      (∀ l, saved ≠ some (AuthExc.partialAuthentication l)) →
      wait_for_response true saved true authenticated
        = WaitRes.raised (saved.getD AuthExc.authenticationException)) := by
  refine ⟨?_, ?_, ?_⟩
  · intro h
    subst h
    rfl
  · intro h l hl
    subst h
    subst hl
    rfl
  · intro h hne
    subst h
    match saved with
    | none => rfl
    | some AuthExc.authenticationException => rfl
    | some (AuthExc.partialAuthentication l) => exact absurd rfl (hne l)
    | some (AuthExc.badAuthenticationType l) => rfl
    | some AuthExc.eofError => rfl

/-- Witness for C8: the three outcomes at concrete inputs. -/
theorem wait_for_response_spec_witness :
    wait_for_response true none true true = WaitRes.returned []
  ∧ wait_for_response true (some (AuthExc.partialAuthentication [passwordB])) true false
      = WaitRes.returned [passwordB]
  ∧ wait_for_response true (some (AuthExc.badAuthenticationType [publickeyB])) true false
      = WaitRes.raised (AuthExc.badAuthenticationType [publickeyB]) :=
  ⟨(wait_for_response_spec none true).1 rfl,
   (wait_for_response_spec (some (AuthExc.partialAuthentication [passwordB])) false).2.1
     rfl [passwordB] rfl,
   (wait_for_response_spec (some (AuthExc.badAuthenticationType [publickeyB])) false).2.2
     rfl (fun l h => by simp at h)⟩

/-- `_parse_service_accept` never changes handler state. -/
theorem parse_service_accept_fst (st : AuthState) (sv : Bytes) :
    (parse_service_accept st sv).1 = st := by
  unfold parse_service_accept
  repeat' split
  all_goals rfl

/-- `_parse_userauth_info_request` never changes handler state. -/
theorem parse_userauth_info_request_fst (st : AuthState) (t i : String)
    (p : List (String × Bool)) :
    (parse_userauth_info_request st t i p).1 = st := by
  unfold parse_userauth_info_request
  repeat' split
  all_goals rfl

/-- `_send_auth_result` with a string username raises nothing. -/
theorem send_auth_result_some_err (env : Env) (st : AuthState) (u : String)
    (m : Bytes) (r : CheckResult) :
    (send_auth_result env st (some u) m r).2.2 = none := by
  unfold send_auth_result disconnect_no_more_auth
  split_ifs <;> rfl

/-- `_send_auth_result` never clears `authenticated`. -/
theorem send_auth_result_auth_mono (env : Env) (st : AuthState) (u : String)
    (m : Bytes) (r : CheckResult) (h : st.authenticated = true) :
    (send_auth_result env st (some u) m r).1.authenticated = true := by
  simp only [send_auth_result, disconnect_no_more_auth]
  split_ifs <;> simp_all

/-- `_parse_userauth_request` raises nothing on any input. -/
theorem parse_userauth_request_err (env : Env) (st : AuthState) (u : String)
    (sv : Bytes) (meth : ReqMethod) :
    (parse_userauth_request env st u sv meth).2.2 = none := by
  unfold parse_userauth_request
  cases meth
  all_goals repeat' split
  all_goals simp_all [send_auth_result_some_err, interactive_query,
    disconnect_no_more_auth, disconnect_service_not_available, apply_ite]

/-- `_parse_userauth_info_response` never clears `authenticated`. -/
theorem parse_userauth_info_response_auth_mono (env : Env) (st : AuthState)
    (rs : List String) (h : st.authenticated = true) :
    (parse_userauth_info_response env st rs).1.authenticated = true := by
  simp only [parse_userauth_info_response, isinstance_type_InteractiveQuery,
    Bool.false_eq_true, if_false]
  split_ifs with h1
  · exact h
  · cases hau : st.auth_username with
    | none => simp [send_auth_result, h]
    | some u => exact send_auth_result_auth_mono env st u kbdInteractiveB _ h

/-- Claim C1 counterexample: on a client that has just processed
`USERAUTH_SUCCESS` (so `authenticated = true`), processing a subsequent
`USERAUTH_FAILURE` resets `authenticated` to `false` — the handler for
`USERAUTH_FAILURE` clears the flag unconditionally, so `authenticated` is
not monotonic over all operation sequences. -/
theorem authenticated_reset_by_failure_cex :
    (step env0 (initState false) Op.userauthSuccess).1.authenticated = true
  ∧ (step env0 (step env0 (initState false) Op.userauthSuccess).1
       (Op.userauthFailure [] false)).1.authenticated = false :=
  ⟨rfl, by decide⟩

/-- Claim C1 as amended: once `authenticated` has become true, every handler
operation other than `_parse_userauth_failure` (which unconditionally resets
the flag) leaves it true. -/
theorem authenticated_monotone_without_failure (env : Env) (st : AuthState)
    (op : Op) (hauth : st.authenticated = true)
    (hop : ∀ l p, op ≠ Op.userauthFailure l p) :
    (step env st op).1.authenticated = true := by
  cases op with
  | auth_none u => simpa [step, auth_none, request_auth] using hauth
  | auth_password u pw => simpa [step, auth_password, request_auth] using hauth
  | auth_publickey u key => simpa [step, auth_publickey, request_auth] using hauth
  | auth_interactive u h sub => simpa [step, auth_interactive, request_auth] using hauth
  | abort => simpa [step, abort] using hauth
  | serviceRequest sv =>
    simp only [step]
    unfold parse_service_request disconnect_service_not_available
    split_ifs <;> simpa using hauth
  | serviceAccept sv =>
    simp only [step]
    rw [parse_service_accept_fst]
    exact hauth
  | userauthRequest u sv meth =>
    simp only [step]
    unfold parse_userauth_request
    split
    · simpa using hauth
    · simp [hauth]
  | userauthSuccess => simp [step, parse_userauth_success]
  | userauthFailure l p => exact absurd rfl (hop l p)
  | banner msg lang => simpa [step, parse_userauth_banner] using hauth
  | infoRequest t i p =>
    simp only [step]
    rw [parse_userauth_info_request_fst]
    exact hauth
  | infoResponse rs =>
    simp only [step]
    exact parse_userauth_info_response_auth_mono env st rs hauth

/-- Witness for the amended C1 at a concrete authenticated state and a
banner operation. -/
theorem authenticated_monotone_without_failure_witness :
    (step env0 {initState false with authenticated := true}
      (Op.banner [] [])).1.authenticated = true :=
  authenticated_monotone_without_failure env0
    {initState false with authenticated := true} (Op.banner [] []) rfl
    (fun _ _ h => Op.noConfusion h)

/-- Claim C3 counterexample: a `USERAUTH_REQUEST` delivered to a handler not
in server mode does not raise — `_parse_userauth_request` replies with a
`USERAUTH_FAILURE("none", partial=false)` message and returns normally. -/
theorem client_userauth_request_replies_cex :
    (step env0 (initState false)
       (Op.userauthRequest "u" sshConnectionB ReqMethod.mnone)).2.2 = none
  ∧ (step env0 (initState false)
       (Op.userauthRequest "u" sshConnectionB ReqMethod.mnone)).2.1
      = [Output.failure noneB false] :=
  ⟨rfl, rfl⟩

/-- Claim C3 as amended: `USERAUTH_INFO_REQUEST` on a client whose current
method is not keyboard-interactive, and `USERAUTH_INFO_RESPONSE` on a
handler not in server mode, raise a fatal protocol-violation error; but a
`USERAUTH_REQUEST` delivered to a non-server handler is answered with a
`USERAUTH_FAILURE("none", partial=false)` reply and raises nothing. -/
theorem illegal_message_handling (env : Env) (st : AuthState) :
    (∀ title instructions prompts, st.auth_method ≠ kbdInteractiveB →
      step env st (Op.infoRequest title instructions prompts)
        = (st, [], some (PyErr.sshException "Illegal info request from server")))
  ∧ (∀ responses, st.server_mode = false →
      step env st (Op.infoResponse responses)
        = (st, [], some (PyErr.sshException "Illegal info response from server")))
  ∧ (∀ u sv meth, st.server_mode = false →
      step env st (Op.userauthRequest u sv meth)
        = (st, [Output.failure noneB false], none)) := by
  refine ⟨?_, ?_, ?_⟩
  · intro t i p h
    simp [step, parse_userauth_info_request, h]
  · intro rs h
    simp [step, parse_userauth_info_response, h]
  · intro u sv meth h
    simp [step, parse_userauth_request, h]

/-- Witness for the amended C3 at concrete states and messages. -/
theorem illegal_message_handling_witness :
    step env0 (initState false) (Op.infoRequest "" "" [])
      = (initState false, [], some (PyErr.sshException "Illegal info request from server"))
  ∧ step env0 (initState false) (Op.infoResponse [])
      = (initState false, [], some (PyErr.sshException "Illegal info response from server")) :=
  ⟨(illegal_message_handling env0 (initState false)).1 "" "" [] (by decide),
   (illegal_message_handling env0 (initState false)).2.1 [] rfl⟩

/-- Claim C4 counterexample: on a server that is already authenticated (as
"alice"), a `USERAUTH_REQUEST` for service "ssh-connection" with the
different username "bob" is silently ignored — no DISCONNECT is sent and the
transport is not closed. -/
theorem username_change_ignored_when_authenticated_cex :
    step env0 authedServerState (Op.userauthRequest "bob" sshConnectionB ReqMethod.mnone)
      = (authedServerState, [], none)
  ∧ authedServerState.auth_username = some "alice" :=
  ⟨rfl, rfl⟩

/-- Claim C4 as amended: on the server, while not yet authenticated, every
`USERAUTH_REQUEST` with service "ssh-connection" whose username differs from
the previously bound `auth_username` is answered with a DISCONNECT with
reason `NO_MORE_AUTH_METHODS_AVAILABLE` and a transport close; and whether
authenticated or not, such a request never emits `USERAUTH_SUCCESS` (after
authentication it is silently ignored). -/
theorem username_write_once (env : Env) (st : AuthState) (u name : String)
    (sv : Bytes) (meth : ReqMethod)
    (hs : st.server_mode = true) (hb : st.auth_username = some u)
    (hne : u ≠ name) :
    (st.authenticated = false → sv = sshConnectionB →
      step env st (Op.userauthRequest name sv meth)
        = ({st with transport_active := false},
           [Output.disconnect DISCONNECT_NO_MORE_AUTH_METHODS_AVAILABLE,
            Output.closeTransport], none))
  ∧ Output.success ∉ (step env st (Op.userauthRequest name sv meth)).2.1 := by
  constructor
  · intro hna hsv
    subst hsv
    simp [step, parse_userauth_request, disconnect_no_more_auth, hs, hb, hna, hne]
  · simp only [step]
    unfold parse_userauth_request disconnect_no_more_auth
      disconnect_service_not_available
    split_ifs with h1 h2 h3 h4
    · simp
    · simp
    · simp
    · simp
    · exact absurd ⟨by simp [hb], by simp [hb, hne]⟩ h4

/-- Witness for the amended C4: the disconnect at a concrete state. -/
theorem username_write_once_witness :
    step env0 st2 (Op.userauthRequest "bob" sshConnectionB ReqMethod.mnone)
      = ({st2 with transport_active := false},
         [Output.disconnect DISCONNECT_NO_MORE_AUTH_METHODS_AVAILABLE,
          Output.closeTransport], none) :=
  (username_write_once env0 st2 "alice" "bob" sshConnectionB ReqMethod.mnone
    rfl rfl (by decide)).1 rfl rfl

/-- Claim C10 counterexample: on a server where no `USERAUTH_REQUEST` has
bound `auth_username` (so it is still `None`), an incoming
`USERAUTH_INFO_RESPONSE` reaches `_send_auth_result` with `username = None`
and its opening `assert isinstance(username, str)` fails. -/
theorem info_response_assert_fails_cex :
    (step env0 (initState true) (Op.infoResponse ["x"])).2.2
      = some PyErr.assertionError :=
  rfl

/-- Claim C10 as amended: the opening assertion of `_send_auth_result` holds
for every call made from `_parse_userauth_request` (processing a
`USERAUTH_REQUEST` never raises); but the call from
`_parse_userauth_info_response` passes `auth_username`, and when no prior
request has bound it the assertion fails with an `AssertionError`. -/
theorem send_auth_result_username_assert (env : Env) (st : AuthState) :
    (∀ name sv meth, (step env st (Op.userauthRequest name sv meth)).2.2 = none)
  ∧ (st.server_mode = true → st.auth_username = none → ∀ rs,
      (step env st (Op.infoResponse rs)).2.2 = some PyErr.assertionError) := by
  constructor
  · intro name sv meth
    simpa [step] using parse_userauth_request_err env st name sv meth
  · intro hs hu rs
    simp [step, parse_userauth_info_response, isinstance_type_InteractiveQuery,
      hs, hu, send_auth_result]

/-- Witness for the amended C10 at concrete states. -/
theorem send_auth_result_username_assert_witness :
    (step env0 (initState true)
       (Op.userauthRequest "u" sshConnectionB ReqMethod.mnone)).2.2 = none
  ∧ (step env0 (initState true) (Op.infoResponse [])).2.2
      = some PyErr.assertionError :=
  ⟨(send_auth_result_username_assert env0 (initState true)).1 "u" sshConnectionB
      ReqMethod.mnone,
   (send_auth_result_username_assert env0 (initState true)).2 rfl rfl []⟩

/-- Claim C2 (evaluating the code at the failing input): on a server with a
bound username, when `check_auth_interactive_response` returns a further
`InteractiveQuery`, the source's test `isinstance(type(result),
InteractiveQuery)` is false, so `_parse_userauth_info_response` sends the
auth result — here a non-partial `USERAUTH_FAILURE` under method
"keyboard-interactive" — and no further `USERAUTH_INFO_REQUEST`, against the
specified behavior. -/
theorem info_response_query_sends_result :
    env2.policy.check_auth_interactive_response ["x"] = CheckResult.query q0
  ∧ step env2 st2 (Op.infoResponse ["x"])
      = ({st2 with auth_fail_count := 1},
         [Output.failure kbdInteractiveB false], none) :=
  ⟨rfl, rfl⟩

/-- One `_send_auth_result` call with a string username: how the failure
counter moves, when the no-more-auth DISCONNECT is emitted, and that the
transport is closed with it. -/
theorem send_auth_result_call_spec (env : Env) (st : AuthState) (u : String)
    (m : Bytes) (r : CheckResult) :
    (send_auth_result env st (some u) m r).1.auth_fail_count
      = st.auth_fail_count + (if isNonPartialFailure r then 1 else 0)
  ∧ (Output.disconnect DISCONNECT_NO_MORE_AUTH_METHODS_AVAILABLE
        ∈ (send_auth_result env st (some u) m r).2.1
      ↔ 10 ≤ (send_auth_result env st (some u) m r).1.auth_fail_count)
  ∧ (10 ≤ (send_auth_result env st (some u) m r).1.auth_fail_count →
      Output.closeTransport ∈ (send_auth_result env st (some u) m r).2.1
      ∧ (send_auth_result env st (some u) m r).1.transport_active = false) := by
  simp only [send_auth_result, disconnect_no_more_auth, isNonPartialFailure]
  split_ifs <;> simp_all

/-- Folding `_send_auth_result` over a result list: the counter accumulates
the non-partial failures, and a no-more-auth DISCONNECT appears in the
output exactly when some call pushes the running count to 10 (equivalently,
when the list is nonempty and the final count reaches 10). -/
theorem runResults_spec (env : Env) (u : String) (m : Bytes) :
    ∀ (rs : List CheckResult) (st : AuthState),
      (runResults env u m st rs).1.auth_fail_count
        = st.auth_fail_count + countNonPartialFailures rs
      ∧ (Output.disconnect DISCONNECT_NO_MORE_AUTH_METHODS_AVAILABLE
            ∈ (runResults env u m st rs).2
          ↔ rs ≠ [] ∧ 10 ≤ st.auth_fail_count + countNonPartialFailures rs) := by
  intro rs
  induction rs with
  | nil =>
    intro st
    simp [runResults, countNonPartialFailures]
  | cons r rs ih =>
    intro st
    rcases hsr : send_auth_result env st (some u) m r with ⟨st1, rest⟩
    rcases rest with ⟨out1, err1⟩
    have hcall := send_auth_result_call_spec env st u m r
    rw [hsr] at hcall
    rcases hcall with ⟨hc1, hc2, _⟩
    have hrec := ih st1
    rcases hrr : runResults env u m st1 rs with ⟨st2, out2⟩
    rw [hrr] at hrec
    rcases hrec with ⟨hr1, hr2⟩
    simp only [runResults, hsr, hrr]
    constructor
    · simp only [countNonPartialFailures]
      rw [hr1, hc1]
      omega
    · rw [List.mem_append, hc2, hr2, hc1]
      simp only [countNonPartialFailures, ne_eq]
      rcases rs with _ | ⟨r2, rs2⟩ <;> split_ifs <;>
        simp_all [countNonPartialFailures] <;> omega

/-- Claim C5: on the server, `auth_fail_count` is incremented exactly when a
non-partial `USERAUTH_FAILURE` is emitted (never on success or partial
failure); as soon as it reaches 10, the same `_send_auth_result` call emits
a DISCONNECT with reason `NO_MORE_AUTH_METHODS_AVAILABLE` and closes the
transport; and, starting from a zero count, a DISCONNECT is emitted exactly
when the sequence contains at least 10 non-partial failure emissions (so
exactly at the 10th). -/
theorem auth_fail_count_cap (env : Env) (u : String) (m : Bytes) (st : AuthState) :
    (∀ r,
      (send_auth_result env st (some u) m r).1.auth_fail_count
        = st.auth_fail_count + (if isNonPartialFailure r then 1 else 0)
      ∧ (Output.disconnect DISCONNECT_NO_MORE_AUTH_METHODS_AVAILABLE
            ∈ (send_auth_result env st (some u) m r).2.1
          ↔ 10 ≤ (send_auth_result env st (some u) m r).1.auth_fail_count)
      ∧ (10 ≤ (send_auth_result env st (some u) m r).1.auth_fail_count →
          Output.closeTransport ∈ (send_auth_result env st (some u) m r).2.1
          ∧ (send_auth_result env st (some u) m r).1.transport_active = false))
  ∧ (st.auth_fail_count = 0 → ∀ rs,
      (runResults env u m st rs).1.auth_fail_count = countNonPartialFailures rs
      ∧ (Output.disconnect DISCONNECT_NO_MORE_AUTH_METHODS_AVAILABLE
            ∈ (runResults env u m st rs).2
          ↔ 10 ≤ countNonPartialFailures rs)) := by
  constructor
  · intro r
    exact send_auth_result_call_spec env st u m r
  · intro h0 rs
    have h := runResults_spec env u m rs st
    rw [h0] at h
    refine ⟨by rw [h.1, Nat.zero_add], ?_⟩
    rw [h.2]
    constructor
    · intro h10
      omega
    · intro h10
      refine ⟨?_, by omega⟩
      intro hnil
      rw [hnil] at h10
      simp [countNonPartialFailures] at h10

/-- Witness for C5: ten definitive failures from a fresh server state yield
a count of 10 and a no-more-auth DISCONNECT. -/
theorem auth_fail_count_cap_witness :
    (runResults env0 "u" noneB (initState true)
       (List.replicate 10 (CheckResult.auth AuthResult.failed))).1.auth_fail_count = 10
  ∧ Output.disconnect DISCONNECT_NO_MORE_AUTH_METHODS_AVAILABLE
      ∈ (runResults env0 "u" noneB (initState true)
          (List.replicate 10 (CheckResult.auth AuthResult.failed))).2 := by
  have h := (auth_fail_count_cap env0 "u" noneB (initState true)).2 rfl
      (List.replicate 10 (CheckResult.auth AuthResult.failed))
  exact ⟨by rw [h.1]; decide, h.2.mpr (by decide)⟩

/-- A definitive failure result never emits `USERAUTH_SUCCESS`. -/
theorem send_auth_result_failed_no_success (env : Env) (st : AuthState)
    (u : String) (m : Bytes) :
    Output.success ∉
      (send_auth_result env st (some u) m (CheckResult.auth AuthResult.failed)).2.1 := by
  simp only [send_auth_result, disconnect_no_more_auth]
  split_ifs <;> simp_all

/-- A definitive failure result emits the `USERAUTH_FAILURE` message with
the policy's allowed-auths list and partial = false. -/
theorem send_auth_result_failed_failure_mem (env : Env) (st : AuthState)
    (u : String) (m : Bytes) :
    Output.failure (env.policy.get_allowed_auths u) false ∈
      (send_auth_result env st (some u) m (CheckResult.auth AuthResult.failed)).2.1 := by
  simp only [send_auth_result, disconnect_no_more_auth]
  split_ifs <;> simp_all

/-- Claim C6: on the server, for a `USERAUTH_REQUEST` with method publickey
and `sig_attached = false`, the handler never emits `USERAUTH_SUCCESS`; and
(in the reachable state: server mode, not authenticated, service
"ssh-connection", username not conflicting, key parsed) when
`check_auth_publickey` returns anything but Failed the reply is exactly
`USERAUTH_PK_OK(alg, blob)`, and when it returns Failed a non-partial
`USERAUTH_FAILURE` is emitted. -/
theorem publickey_probe_gating (env : Env) (st : AuthState) (name : String)
    (sv katype kablob sig : Bytes) :
    Output.success ∉ (step env st (Op.userauthRequest name sv
        (ReqMethod.publickey false katype kablob sig))).2.1
  ∧ (st.server_mode = true → st.authenticated = false → sv = sshConnectionB →
      (st.auth_username = none ∨ st.auth_username = some name) →
      ∀ key, env.key_info katype kablob = some key →
        (env.policy.check_auth_publickey name key ≠ AuthResult.failed →
          (step env st (Op.userauthRequest name sv
              (ReqMethod.publickey false katype kablob sig))).2.1
            = [Output.pkOk katype kablob])
        ∧ (env.policy.check_auth_publickey name key = AuthResult.failed →
          Output.failure (env.policy.get_allowed_auths name) false
            ∈ (step env st (Op.userauthRequest name sv
                (ReqMethod.publickey false katype kablob sig))).2.1)) := by
  constructor
  · cases hk : env.key_info katype kablob with
    | none =>
      simp only [step, parse_userauth_request, hk]
      split_ifs <;>
        simp_all [disconnect_no_more_auth, disconnect_service_not_available]
    | some key =>
      simp only [step, parse_userauth_request, hk]
      split_ifs <;>
        simp_all [disconnect_no_more_auth, disconnect_service_not_available,
          send_auth_result_failed_no_success]
  · intro hs hna hsv hu key hkey
    subst hsv
    have hcond : ¬(st.auth_username ≠ none ∧ st.auth_username ≠ some name) := by
      rcases hu with h | h <;> simp [h]
    constructor
    · intro hres
      simp [step, parse_userauth_request, hs, hna, hcond, hkey, hres]
    · intro hres
      simp only [step]
      simp [parse_userauth_request, hs, hna, hcond, hkey, hres]
      exact send_auth_result_failed_failure_mem env _ name publickeyB

/-- Witness for C6: the probe reply at a concrete accepting environment. -/
theorem publickey_probe_gating_witness :
    (step env6 (initState true) (Op.userauthRequest "carol" sshConnectionB
        (ReqMethod.publickey false (utf8 "ssh-rsa") [1, 2, 3] []))).2.1
      = [Output.pkOk (utf8 "ssh-rsa") [1, 2, 3]] :=
  (((publickey_probe_gating env6 (initState true) "carol" sshConnectionB
      (utf8 "ssh-rsa") [1, 2, 3] []).2 rfl rfl rfl (Or.inl rfl) pk0 rfl).1
    (by decide))

/-- Claim C9 (evaluating the code at the failing input): on a client with a
stored `auth_event`, a `USERAUTH_BANNER` raises a `TypeError` out of the
handler — the source's `'Auth banner: ' + banner` concatenates `str` with
`bytes` under Python 3 — so it is not a harmless log line: the dispatch dies
at the banner and a run consisting of a banner followed by the terminal
`USERAUTH_SUCCESS` never sets the caller's event (zero set-event effects
instead of the exactly-once the claim states). -/
theorem banner_raises_typeerror :
    step env0 {initState false with auth_event := true} (Op.banner [66] [101])
      = ({initState false with auth_event := true}, [], some PyErr.typeError)
  ∧ countSetEvent (run env0 {initState false with auth_event := true}
      (bannerOps [([66], [101])] ++ [Op.userauthSuccess])).2.1 = 0
  ∧ (run env0 {initState false with auth_event := true}
      (bannerOps [([66], [101])] ++ [Op.userauthSuccess])).2.2
      = some PyErr.typeError :=
  ⟨rfl, rfl, rfl⟩

end AuthHandler
